import Mathlib

/-!
Verification development for the ha-tahoma device-control translation layer:
the `DomesticHotWaterProduction` water-heater controller and the
`AtlanticHeatRecoveryVentilation` climate controller, shallowly embedded in
Lean 4.  Raw device state is explicit data, command issuance is modelled as a
trace of `Command` values appended by the Command Executor, and Python
exceptions (dictionary `KeyError`) are modelled with explicit error values.
-/

/-- Parameter value passed to a device command: Python scalars (string or
number), a small string-to-string record (Python dict), or Python `None`. -/
inductive PValue where
  | str (s : String)
  | num (n : Int)
  | record (fields : List (String × String))
  | null
deriving DecidableEq, Repr

/-- A command submitted to the Command Executor: its vendor name and its
positional parameters, in order. -/
structure Command where
  name : String
  params : List PValue
deriving DecidableEq, Repr

/-- Lookup in a Python dict with string keys, modelled as an association
list: first matching key wins, `none` when the key is absent (`dict.get`). -/
def dictGet (d : List (String × String)) (k : String) : Option String :=
  (d.find? (fun p => p.1 = k)).map Prod.snd

/-- Python dict item assignment `d[k] = v` on a string-to-string dict:
overwrites the value at an existing key keeping its position, otherwise
appends the new binding at the end (insertion order). -/
def dictSet (d : List (String × String)) (k v : String) : List (String × String) :=
  match d with
  | [] => [(k, v)]
  | (k0, v0) :: rest =>
      if k0 = k then (k0, v) :: rest else (k0, v0) :: dictSet rest k v

/-- Lookup in a table keyed by strings (`tbl[k]` without a default);
`none` models a Python `KeyError`. -/
def tblGet (tbl : List (String × String)) (k : String) : Option String :=
  (tbl.find? (fun p => p.1 = k)).map Prod.snd

-- Home Assistant constants used by both controllers.

def STATE_ON : String := "on"

def STATE_OFF : String := "off"

def STATE_UNKNOWN : String := "unknown"

def ATTR_TEMPERATURE : String := "temperature"

def STATE_ECO : String := "eco"

def STATE_HIGH_DEMAND : String := "high_demand"

-- domestic_hot_water_production.py constants.

def STATE_MANUAL : String := "manual"

def STATE_AUTO : String := "auto"

def STATE_ABSENCE : String := "absence"

def STATE_RELAUNCH : String := "relaunch"

def COMMAND_SET_TARGET_TEMPERATURE : String := "setTargetTemperature"

def COMMAND_SET_DHW_MODE : String := "setDHWMode"

def COMMAND_SET_CURRENT_OPERATING_MODE : String := "setCurrentOperatingMode"

def COMMAND_SET_BOOST_MODE_DURATION : String := "setBoostModeDuration"

def MODE_AUTO : String := "autoMode"

def MODE_BOOST : String := "boost"

def MODE_MANUAL_ECO_ACTIVE : String := "manualEcoActive"

def MODE_MANUAL_ECO_INACTIVE : String := "manualEcoInactive"

/-- The fixed vendor-to-generic operation-mode table
`TAHOMA_TO_OPERATION_MODE` of the hot-water controller. -/
def TAHOMA_TO_OPERATION_MODE : List (String × String) :=
  [(MODE_MANUAL_ECO_ACTIVE, STATE_ECO),
   (MODE_MANUAL_ECO_INACTIVE, STATE_MANUAL),
   (MODE_AUTO, STATE_AUTO),
   (MODE_BOOST, STATE_HIGH_DEMAND)]

/-- The reverse table `OPERATION_MODE_TO_TAHOMA`, built by dict
comprehension from the forward table (values become keys). -/
def OPERATION_MODE_TO_TAHOMA : List (String × String) :=
  TAHOMA_TO_OPERATION_MODE.map (fun p => (p.2, p.1))

/-- Modelled from the spec: the Device State Store channels the hot-water
controller reads (its `select_state` implementation lives outside the two
given source files).  Per the spec it is a keyed lookup of the last received
raw value per channel; a scalar channel that was never populated reads as
absent. -/
structure DHWState where
  dhwBoostMode : Option String
  dhwMode : Option String
deriving DecidableEq, Repr

/-- Python `KeyError` raised by an unguarded dict lookup. -/
inductive PyError where
  | keyError
deriving DecidableEq, Repr

/-- `DomesticHotWaterProduction.current_operation`: `HighDemand` whenever the
boost channel reads `"on"`, otherwise the table image of `DHWModeState`;
a raw value outside the table (including an absent one) raises `KeyError`. -/
def current_operation (s : DHWState) : Except PyError String :=
  if s.dhwBoostMode = some STATE_ON then Except.ok STATE_HIGH_DEMAND
  else
    match s.dhwMode with
    | some raw =>
        match tblGet TAHOMA_TO_OPERATION_MODE raw with
        | some g => Except.ok g
        | none => Except.error PyError.keyError
    | none => Except.error PyError.keyError

/-- `DomesticHotWaterProduction.async_set_temperature`: reads the optional
`temperature` keyword argument with `kwargs.get` (yielding `None` when the
key is absent) and unconditionally submits one `setTargetTemperature`
command with that value. -/
def async_set_temperature (kwargs : List (String × PValue)) : List Command :=
  let target := ((kwargs.find? (fun p => p.1 = ATTR_TEMPERATURE)).map Prod.snd).getD PValue.null
  [⟨COMMAND_SET_TARGET_TEMPERATURE, [target]⟩]

/-- The boost-clear command `setCurrentOperatingMode {relaunch: off, absence: off}`. -/
def cmdClearBoost : Command :=
  ⟨COMMAND_SET_CURRENT_OPERATING_MODE,
   [PValue.record [(STATE_RELAUNCH, STATE_OFF), (STATE_ABSENCE, STATE_OFF)]]⟩

/-- The boost-enter command `setCurrentOperatingMode {relaunch: on, absence: off}`. -/
def cmdEnterBoost : Command :=
  ⟨COMMAND_SET_CURRENT_OPERATING_MODE,
   [PValue.record [(STATE_RELAUNCH, STATE_ON), (STATE_ABSENCE, STATE_OFF)]]⟩

/-- The fixed-duration boost command `setBoostModeDuration(1)`. -/
def cmdBoostDuration : Command :=
  ⟨COMMAND_SET_BOOST_MODE_DURATION, [PValue.num 1]⟩

/-- `DomesticHotWaterProduction.async_set_operation_mode`: returns the trace
of commands submitted before control left the method, plus the `KeyError`
when one was raised (by the `current_operation` read in the first guard, or
by the reverse-table lookup in the final branch). -/
def async_set_operation_mode (s : DHWState) (operation_mode : String) :
    List Command × Option PyError :=
  match current_operation s with
  | Except.error e => ([], some e)
  | Except.ok cur =>
      let clear :=
        if cur = STATE_HIGH_DEMAND ∧ operation_mode ≠ STATE_HIGH_DEMAND then
          [cmdClearBoost]
        else []
      if operation_mode = STATE_HIGH_DEMAND then
        (clear ++ [cmdEnterBoost, cmdBoostDuration], none)
      else
        match tblGet OPERATION_MODE_TO_TAHOMA operation_mode with
        | some raw => (clear ++ [⟨COMMAND_SET_DHW_MODE, [PValue.str raw]⟩], none)
        | none => (clear, some PyError.keyError)

-- atlantic_heat_recovery_ventilation.py constants.

def FAN_AUTO : String := "auto"

def FAN_BOOST : String := "home_boost"

def FAN_KITCHEN : String := "kitchen_boost"

def FAN_AWAY : String := "away"

def FAN_BYPASS : String := "bypass_boost"

def PRESET_AUTO : String := "auto"

def PRESET_PROG : String := "prog"

def PRESET_MANUAL : String := "manual"

def COMMAND_SET_AIR_DEMAND_MODE : String := "setAirDemandMode"

def COMMAND_SET_VENTILATION_CONFIGURATION_MODE : String := "setVentilationConfigurationMode"

def COMMAND_SET_VENTILATION_MODE : String := "setVentilationMode"

def COMMAND_REFRESH_VENTILATION_STATE : String := "refreshVentilationState"

def COMMAND_REFRESH_VENTILATION_CONFIGURATION_MODE : String := "refreshVentilationConfigurationMode"

/-- The fixed vendor-to-generic fan-mode table `TAHOMA_TO_FAN_MODES`; the
key is the raw `AirDemandModeState` value, where `none` models the Python
`None` key for a never-populated channel. -/
def TAHOMA_TO_FAN_MODES : List (Option String × String) :=
  [(some "auto", FAN_AUTO),
   (some "away", FAN_BOOST),
   (some "boost", FAN_KITCHEN),
   (some "high", FAN_AWAY),
   (none, FAN_BYPASS)]

/-- The reverse fan table `FAN_MODES_TO_TAHOMA`, built by dict comprehension
from the forward table. -/
def FAN_MODES_TO_TAHOMA : List (String × Option String) :=
  TAHOMA_TO_FAN_MODES.map (fun p => (p.2, p.1))

/-- Unguarded lookup `TAHOMA_TO_FAN_MODES[k]`; the outer `none` models a
Python `KeyError`. -/
def fanTblGet (tbl : List (Option String × String)) (k : Option String) : Option String :=
  (tbl.find? (fun p => p.1 = k)).map Prod.snd

/-- Unguarded lookup `FAN_MODES_TO_TAHOMA[k]`; the outer `none` models a
Python `KeyError` (the stored value itself is an `Option String`). -/
def revFanTblGet (tbl : List (String × Option String)) (k : String) : Option (Option String) :=
  (tbl.find? (fun p => p.1 = k)).map Prod.snd

/-- Modelled from the spec: the Device State Store channels the ventilation
controller reads (its `select_state` implementation lives outside the two
given source files).  Per the spec a scalar channel reads as its last value
or absent, and the record-valued `io:VentilationModeState` channel reads as
a small string-to-string record, empty when never populated. -/
structure VentState where
  ventilationConfigurationMode : Option String
  ventilationMode : List (String × String)
  airDemandMode : Option String
deriving DecidableEq, Repr

/-- Mutable fields of an `AtlanticHeatRecoveryVentilation` instance: the
resolved temperature-sensor binding and the cached current temperature. -/
structure VentCtl where
  temp_sensor_entity_id : Option String
  current_temperature : Option ℚ
deriving DecidableEq, Repr

/-- Modelled from the spec: the world a ventilation-controller operation acts
on — the Device State Store snapshot, the controller instance fields, the
count of host-state-update notifications scheduled, and the trace of commands
submitted to the Command Executor (whose implementation lives outside the two
given source files; per the spec, executing a command appends it and leaves
the store to be refreshed later, asynchronously). -/
structure VentWorld where
  store : VentState
  ctl : VentCtl
  scheduled : Nat
  trace : List Command
deriving DecidableEq, Repr

/-- Modelled from the spec: `execute_command` submits one named command with
its parameters to the Command Executor; the store is not changed
synchronously. -/
def exec1 (w : VentWorld) (c : Command) : VentWorld :=
  { w with trace := w.trace ++ [c] }

/-- `schedule_update_ha_state`: records that a host state update was
scheduled (a side effect outside the store and the trace). -/
def schedule_update_ha_state (w : VentWorld) : VentWorld :=
  { w with scheduled := w.scheduled + 1 }

/-- `AtlanticHeatRecoveryVentilation.preset_mode`: `prog` sub-field `"on"`
wins, then the configuration-mode value decides between auto and manual,
else `none`. -/
def preset_mode (s : VentState) : Option String :=
  if dictGet s.ventilationMode "prog" = some "on" then some PRESET_PROG
  else if s.ventilationConfigurationMode = some "comfort" then some PRESET_AUTO
  else if s.ventilationConfigurationMode = some "standard" then some PRESET_MANUAL
  else none

/-- `AtlanticHeatRecoveryVentilation.fan_mode`: cooling sub-field `"on"`
yields bypass, otherwise the raw `AirDemandModeState` is looked up in the
fan table without a guard, so an unmapped present value raises `KeyError`. -/
def fan_mode (s : VentState) : Except PyError String :=
  if dictGet s.ventilationMode "cooling" = some "on" then Except.ok FAN_BYPASS
  else
    match fanTblGet TAHOMA_TO_FAN_MODES s.airDemandMode with
    | some m => Except.ok m
    | none => Except.error PyError.keyError

/-- `AtlanticHeatRecoveryVentilation._set_ventilation_mode`: re-reads the
`io:VentilationModeState` record, overrides the `cooling` and `prog` fields
when the corresponding argument is truthy (Python truthiness: not `None`,
not empty), and submits the resulting record as one `setVentilationMode`
command. -/
def set_ventilation_mode (w : VentWorld) (cooling prog : Option String) : VentWorld :=
  let d0 := w.store.ventilationMode
  let d1 := match cooling with
    | some c => if c = "" then d0 else dictSet d0 "cooling" c
    | none => d0
  let d2 := match prog with
    | some p => if p = "" then d1 else dictSet d1 "prog" p
    | none => d1
  exec1 w ⟨COMMAND_SET_VENTILATION_MODE, [PValue.record d2]⟩

/-- The trailing refresh command `refreshVentilationState()`. -/
def cmdRefreshVentState : Command := ⟨COMMAND_REFRESH_VENTILATION_STATE, []⟩

/-- The trailing refresh command `refreshVentilationConfigurationMode()`. -/
def cmdRefreshVentConfig : Command := ⟨COMMAND_REFRESH_VENTILATION_CONFIGURATION_MODE, []⟩

/-- `AtlanticHeatRecoveryVentilation.async_set_preset_mode`: three
independent guarded branches (auto, prog, manual), each submitting the
configuration-mode command and then the ventilation-mode command, followed
unconditionally by the two refresh commands.  An unsupported preset matches
no branch and reaches the refreshes directly. -/
def async_set_preset_mode (w : VentWorld) (preset : String) : VentWorld :=
  let w1 :=
    if preset = PRESET_AUTO then
      set_ventilation_mode
        (exec1 w ⟨COMMAND_SET_VENTILATION_CONFIGURATION_MODE, [PValue.str "comfort"]⟩)
        none (some "off")
    else w
  let w2 :=
    if preset = PRESET_PROG then
      set_ventilation_mode
        (exec1 w1 ⟨COMMAND_SET_VENTILATION_CONFIGURATION_MODE, [PValue.str "standard"]⟩)
        none (some "on")
    else w1
  let w3 :=
    if preset = PRESET_MANUAL then
      set_ventilation_mode
        (exec1 w2 ⟨COMMAND_SET_VENTILATION_CONFIGURATION_MODE, [PValue.str "standard"]⟩)
        none (some "off")
    else w2
  exec1 (exec1 w3 cmdRefreshVentState) cmdRefreshVentConfig

/-- `AtlanticHeatRecoveryVentilation.async_set_fan_mode`: bypass sends the
vendor value `"auto"`; any other fan mode is looked up in the reverse table
when building the command arguments, so an unsupported fan mode raises
`KeyError` before any command is submitted; otherwise the command and the
two refreshes follow. -/
def async_set_fan_mode (w : VentWorld) (fan : String) : VentWorld × Option PyError :=
  if fan = FAN_BYPASS then
    (exec1 (exec1 (exec1 w ⟨COMMAND_SET_AIR_DEMAND_MODE, [PValue.str "auto"]⟩)
        cmdRefreshVentState) cmdRefreshVentConfig, none)
  else
    match revFanTblGet FAN_MODES_TO_TAHOMA fan with
    | none => (w, some PyError.keyError)
    | some raw =>
        let p := match raw with
          | some s => PValue.str s
          | none => PValue.null
        (exec1 (exec1 (exec1 w ⟨COMMAND_SET_AIR_DEMAND_MODE, [p]⟩)
            cmdRefreshVentState) cmdRefreshVentConfig, none)

/-- `AtlanticHeatRecoveryVentilation.async_set_hvac_mode`: the method body is
empty (there is only one hvac mode), so the world is returned unchanged. -/
def async_set_hvac_mode (w : VentWorld) (_hvac_mode : String) : VentWorld := w

/-- A host sensor state object as compared by the notification handler:
entity id, state string and attributes (host-state equality compares all). -/
structure SensorState where
  entity_id : String
  state : String
  attributes : List (String × String)
deriving DecidableEq, Repr

/-- `AtlanticHeatRecoveryVentilation.update_temp`, parameterised by the
numeric parser standing for Python `float`: absent or `"unknown"` states are
ignored; a parse failure (`ValueError`) is caught and only logged, leaving
the cached temperature unchanged; otherwise the cache is replaced. -/
def update_temp (parseFloat : String → Option ℚ) (w : VentWorld)
    (state : Option SensorState) : VentWorld :=
  match state with
  | none => w
  | some st =>
      if st.state = STATE_UNKNOWN then w
      else
        match parseFloat st.state with
        | some v => { w with ctl := { w.ctl with current_temperature := some v } }
        | none => w

/-- `AtlanticHeatRecoveryVentilation._async_temp_sensor_changed`: a
notification with an absent new state or with identical old and new states
returns immediately; otherwise the cache is updated and a host state update
is scheduled. -/
def async_temp_sensor_changed (parseFloat : String → Option ℚ) (w : VentWorld)
    (old_state new_state : Option SensorState) : VentWorld :=
  if new_state = none ∨ old_state = new_state then w
  else schedule_update_ha_state (update_temp parseFloat w new_state)

-- Theorems settling the claims.

/-- C4: `current_operation` returns `HighDemand` whenever the boost channel
reads `"on"`, regardless of `DHWModeState`; when the boost channel is not
`"on"` it returns exactly the table-mapped generic value for each of the
four raw mode values, and fails with a lookup error (`KeyError`) when the
raw `DHWModeState` value matches none of the four (including when it is
absent). -/
theorem c4_current_operation_table :
    (∀ s : DHWState, s.dhwBoostMode = some STATE_ON →
        current_operation s = Except.ok STATE_HIGH_DEMAND) ∧
    (∀ s : DHWState, s.dhwBoostMode ≠ some STATE_ON →
      (s.dhwMode = some MODE_MANUAL_ECO_ACTIVE → current_operation s = Except.ok STATE_ECO) ∧
      (s.dhwMode = some MODE_MANUAL_ECO_INACTIVE → current_operation s = Except.ok STATE_MANUAL) ∧
      (s.dhwMode = some MODE_AUTO → current_operation s = Except.ok STATE_AUTO) ∧
      (s.dhwMode = some MODE_BOOST → current_operation s = Except.ok STATE_HIGH_DEMAND)) ∧
    (∀ (s : DHWState) (raw : String), s.dhwBoostMode ≠ some STATE_ON →
        s.dhwMode = some raw → tblGet TAHOMA_TO_OPERATION_MODE raw = none →
        current_operation s = Except.error PyError.keyError) ∧
    (∀ s : DHWState, s.dhwBoostMode ≠ some STATE_ON → s.dhwMode = none →
        current_operation s = Except.error PyError.keyError) := by
  refine ⟨?_, ?_, ?_, ?_⟩
  · intro s h
    simp [current_operation, h]
  · intro s h
    refine ⟨?_, ?_, ?_, ?_⟩ <;> intro hm <;>
      simp [current_operation, h, hm, tblGet, TAHOMA_TO_OPERATION_MODE,
        MODE_MANUAL_ECO_ACTIVE, MODE_MANUAL_ECO_INACTIVE, MODE_AUTO, MODE_BOOST,
        STATE_ECO, STATE_MANUAL, STATE_AUTO, STATE_HIGH_DEMAND, List.find?]
  · intro s raw h hm hlook
    simp [current_operation, h, hm, hlook]
  · intro s h hm
    simp [current_operation, h, hm]

/-- Witness for C4 at concrete raw states: boost on overrides an unmapped
mode value; boost off maps `manualEcoActive` to eco; boost off with an
unmapped mode value fails. -/
theorem c4_current_operation_table_witness :
    current_operation ⟨some "on", some "weird"⟩ = Except.ok STATE_HIGH_DEMAND ∧
    current_operation ⟨some "off", some "manualEcoActive"⟩ = Except.ok STATE_ECO ∧
    current_operation ⟨some "off", some "weird"⟩ = Except.error PyError.keyError :=
  ⟨c4_current_operation_table.1 ⟨some "on", some "weird"⟩ rfl,
   (c4_current_operation_table.2.1 ⟨some "off", some "manualEcoActive"⟩ (by decide)).1 rfl,
   c4_current_operation_table.2.2.1 ⟨some "off", some "weird"⟩ "weird" (by decide) rfl (by decide)⟩

/-- C3 counterexample: starting from the raw state with boost `"off"` and the
unmapped `DHWModeState` value `"invalid"`, setting operation mode
`HighDemand` raises the lookup error from the `current_operation` read in
the first guard and issues no command at all — not the two boost commands
the claim requires for every starting raw state. -/
theorem c3_counterexample :
    async_set_operation_mode ⟨some "off", some "invalid"⟩ STATE_HIGH_DEMAND =
      ([], some PyError.keyError) ∧
    (async_set_operation_mode ⟨some "off", some "invalid"⟩ STATE_HIGH_DEMAND).1 ≠
      [cmdEnterBoost, cmdBoostDuration] := by
  constructor
  · rfl
  · decide

/-- C3 amended: on every starting raw state on which the current-operation
read succeeds, (1) when the current operation reads `HighDemand` and the
target is a different supported mode, the boost-clear command is issued
strictly before the single `setDHWMode` command; (2) when the target is
`HighDemand` the transaction is exactly boost-enter followed by
`setBoostModeDuration(1)`, with no `setDHWMode`; (3) any other supported
target yields exactly one `setDHWMode` command with the reverse-table
value.  When the current-operation read fails, the operation fails with
that lookup error having issued no commands. -/
theorem c3_set_operation_mode_amended :
    (∀ (s : DHWState) (e : PyError) (m : String), current_operation s = Except.error e →
        async_set_operation_mode s m = ([], some e)) ∧
    (∀ (s : DHWState) (cur : String), current_operation s = Except.ok cur →
        async_set_operation_mode s STATE_HIGH_DEMAND =
          ([cmdEnterBoost, cmdBoostDuration], none)) ∧
    (∀ (s : DHWState) (cur m raw : String), current_operation s = Except.ok cur →
        m ≠ STATE_HIGH_DEMAND → tblGet OPERATION_MODE_TO_TAHOMA m = some raw →
        async_set_operation_mode s m =
          ((if cur = STATE_HIGH_DEMAND then [cmdClearBoost] else []) ++
            [⟨COMMAND_SET_DHW_MODE, [PValue.str raw]⟩], none)) := by
  refine ⟨?_, ?_, ?_⟩
  · intro s e m h
    simp [async_set_operation_mode, h]
  · intro s cur h
    simp [async_set_operation_mode, h]
  · intro s cur m raw h hm hlook
    simp [async_set_operation_mode, h, hm, hlook]

/-- Witness for C3 amended at concrete inputs: an unmapped state fails with
no commands; entering boost from boost issues exactly the two boost
commands; leaving boost for manual issues the clear command first, then the
single `setDHWMode("manualEcoInactive")`. -/
theorem c3_set_operation_mode_amended_witness :
    async_set_operation_mode ⟨some "off", some "invalid"⟩ STATE_MANUAL =
      ([], some PyError.keyError) ∧
    async_set_operation_mode ⟨some "on", none⟩ STATE_HIGH_DEMAND =
      ([cmdEnterBoost, cmdBoostDuration], none) ∧
    async_set_operation_mode ⟨some "on", none⟩ STATE_MANUAL =
      ([cmdClearBoost, ⟨COMMAND_SET_DHW_MODE, [PValue.str "manualEcoInactive"]⟩], none) := by
  refine ⟨?_, ?_, ?_⟩
  · exact c3_set_operation_mode_amended.1 ⟨some "off", some "invalid"⟩ PyError.keyError
      STATE_MANUAL rfl
  · exact c3_set_operation_mode_amended.2.1 ⟨some "on", none⟩ STATE_HIGH_DEMAND rfl
  · have h := c3_set_operation_mode_amended.2.2 ⟨some "on", none⟩ STATE_HIGH_DEMAND
      STATE_MANUAL MODE_MANUAL_ECO_INACTIVE rfl (by decide) (by decide)
    simpa using h

/-- C1 counterexample: calling set-temperature with no temperature value in
the request issues one `setTargetTemperature` command carrying the Python
`None` value — not zero commands. -/
theorem c1_counterexample :
    async_set_temperature [] = [⟨COMMAND_SET_TARGET_TEMPERATURE, [PValue.null]⟩] ∧
    async_set_temperature [] ≠ [] := by
  constructor
  · rfl
  · decide

/-- C1 amended: the set-temperature operation always issues exactly one
`setTargetTemperature` command: when the optional temperature parameter is
absent the command carries the null (`None`) value, and when it is present
the command carries that value. -/
theorem c1_set_temperature_amended :
    (∀ kwargs : List (String × PValue),
        kwargs.find? (fun p => p.1 = ATTR_TEMPERATURE) = none →
        async_set_temperature kwargs =
          [⟨COMMAND_SET_TARGET_TEMPERATURE, [PValue.null]⟩]) ∧
    (∀ (kwargs : List (String × PValue)) (k : String) (v : PValue),
        kwargs.find? (fun p => p.1 = ATTR_TEMPERATURE) = some (k, v) →
        async_set_temperature kwargs =
          [⟨COMMAND_SET_TARGET_TEMPERATURE, [v]⟩]) := by
  constructor
  · intro kwargs h
    simp [async_set_temperature, h]
  · intro kwargs k v h
    simp [async_set_temperature, h]

/-- Witness for C1 amended: the empty request yields the null-valued
command; a request with temperature 55 yields the command carrying 55. -/
theorem c1_set_temperature_amended_witness :
    async_set_temperature [] = [⟨COMMAND_SET_TARGET_TEMPERATURE, [PValue.null]⟩] ∧
    async_set_temperature [(ATTR_TEMPERATURE, PValue.num 55)] =
      [⟨COMMAND_SET_TARGET_TEMPERATURE, [PValue.num 55]⟩] :=
  ⟨c1_set_temperature_amended.1 [] rfl,
   c1_set_temperature_amended.2 [(ATTR_TEMPERATURE, PValue.num 55)]
     ATTR_TEMPERATURE (PValue.num 55) (by simp)⟩

/-- C2 counterexample: requesting the unsupported preset `"cool"` from a
concrete world raises no error (the operation is total) and still submits
the two trailing refresh commands — it does not report an invalid-input
error before any command is issued. -/
theorem c2_counterexample :
    async_set_preset_mode ⟨⟨some "standard", [("prog", "on")], none⟩, ⟨none, none⟩, 0, []⟩
        "cool" =
      ⟨⟨some "standard", [("prog", "on")], none⟩, ⟨none, none⟩, 0,
        [cmdRefreshVentState, cmdRefreshVentConfig]⟩ ∧
    (async_set_preset_mode ⟨⟨some "standard", [("prog", "on")], none⟩, ⟨none, none⟩, 0, []⟩
        "cool").trace ≠ [] := by
  constructor
  · rfl
  · decide

/-- C2 amended: for every preset value outside the three supported presets,
the set-preset-mode operation reports no error and submits exactly the two
trailing refresh commands (`refreshVentilationState` then
`refreshVentilationConfigurationMode`) and nothing else, leaving the rest of
the world unchanged. -/
theorem c2_set_preset_mode_unsupported_amended :
    ∀ (w : VentWorld) (p : String), p ≠ PRESET_AUTO → p ≠ PRESET_PROG →
      p ≠ PRESET_MANUAL →
      async_set_preset_mode w p =
        { w with trace := w.trace ++ [cmdRefreshVentState, cmdRefreshVentConfig] } := by
  intro w p ha hp hm
  simp [async_set_preset_mode, exec1, ha, hp, hm]

/-- Witness for C2 amended at the unsupported preset `"cool"`. -/
theorem c2_set_preset_mode_unsupported_amended_witness :
    async_set_preset_mode ⟨⟨none, [], none⟩, ⟨none, none⟩, 0, []⟩ "cool" =
      ⟨⟨none, [], none⟩, ⟨none, none⟩, 0, [cmdRefreshVentState, cmdRefreshVentConfig]⟩ := by
  have h := c2_set_preset_mode_unsupported_amended
    ⟨⟨none, [], none⟩, ⟨none, none⟩, 0, []⟩ "cool" (by decide) (by decide) (by decide)
  simpa using h

/-- C5: from the raw state with configuration mode `"standard"` and
ventilation record `{prog: "on"}`, set-preset-mode auto submits exactly
`setVentilationConfigurationMode("comfort")`,
`setVentilationMode({prog: "off"})`, then the two refresh commands, in that
order; and in general, for each of the three supported presets and every
starting world, the configuration-mode command comes strictly before the
ventilation-mode command built from the stored record with its `prog` field
overridden, followed by exactly the two refresh commands in fixed order. -/
theorem c5_set_preset_mode_sequences :
    (async_set_preset_mode ⟨⟨some "standard", [("prog", "on")], none⟩, ⟨none, none⟩, 0, []⟩
        PRESET_AUTO).trace =
      [⟨COMMAND_SET_VENTILATION_CONFIGURATION_MODE, [PValue.str "comfort"]⟩,
       ⟨COMMAND_SET_VENTILATION_MODE, [PValue.record [("prog", "off")]]⟩,
       cmdRefreshVentState, cmdRefreshVentConfig] ∧
    (∀ w : VentWorld,
      (async_set_preset_mode w PRESET_AUTO).trace =
        w.trace ++
          [⟨COMMAND_SET_VENTILATION_CONFIGURATION_MODE, [PValue.str "comfort"]⟩,
           ⟨COMMAND_SET_VENTILATION_MODE,
            [PValue.record (dictSet w.store.ventilationMode "prog" "off")]⟩,
           cmdRefreshVentState, cmdRefreshVentConfig] ∧
      (async_set_preset_mode w PRESET_PROG).trace =
        w.trace ++
          [⟨COMMAND_SET_VENTILATION_CONFIGURATION_MODE, [PValue.str "standard"]⟩,
           ⟨COMMAND_SET_VENTILATION_MODE,
            [PValue.record (dictSet w.store.ventilationMode "prog" "on")]⟩,
           cmdRefreshVentState, cmdRefreshVentConfig] ∧
      (async_set_preset_mode w PRESET_MANUAL).trace =
        w.trace ++
          [⟨COMMAND_SET_VENTILATION_CONFIGURATION_MODE, [PValue.str "standard"]⟩,
           ⟨COMMAND_SET_VENTILATION_MODE,
            [PValue.record (dictSet w.store.ventilationMode "prog" "off")]⟩,
           cmdRefreshVentState, cmdRefreshVentConfig]) := by
  constructor
  · rfl
  · intro w
    refine ⟨?_, ?_, ?_⟩ <;>
      simp [async_set_preset_mode, set_ventilation_mode, exec1,
        PRESET_AUTO, PRESET_PROG, PRESET_MANUAL]

/-- A successful unguarded table lookup comes from a table entry. -/
theorem tblGet_mem {tbl : List (String × String)} {raw g : String}
    (h : tblGet tbl raw = some g) : (raw, g) ∈ tbl := by
  unfold tblGet at h
  rcases Option.map_eq_some'.1 h with ⟨pr, hfind, hsnd⟩
  have h1 : pr.1 = raw := by
    have hp := List.find?_some hfind
    simpa using hp
  have hmem := List.mem_of_find?_eq_some hfind
  cases pr
  simp only at h1 hsnd
  subst h1
  subst hsnd
  exact hmem

/-- C6: the hot-water mode tables are a true bijection — mapping any raw
mode value forward and back through the reverse table returns it; for the
ventilation fan mapping, the round trip (raw value, fan-mode read, vendor
value issued by set-fan-mode) returns the original raw value for the raw
values read as auto, kitchen and away fan modes, while the bypass fan mode
derived from the absent raw case maps back to the vendor value `"auto"`,
not to absence. -/
theorem c6_mode_table_round_trips :
    (∀ raw g : String, tblGet TAHOMA_TO_OPERATION_MODE raw = some g →
        tblGet OPERATION_MODE_TO_TAHOMA g = some raw) ∧
    (∀ s : VentState, dictGet s.ventilationMode "cooling" ≠ some "on" →
        s.airDemandMode = some "auto" → fan_mode s = Except.ok FAN_AUTO) ∧
    (∀ w : VentWorld, ((async_set_fan_mode w FAN_AUTO).1).trace =
        w.trace ++ [⟨COMMAND_SET_AIR_DEMAND_MODE, [PValue.str "auto"]⟩,
          cmdRefreshVentState, cmdRefreshVentConfig]) ∧
    (∀ s : VentState, dictGet s.ventilationMode "cooling" ≠ some "on" →
        s.airDemandMode = some "boost" → fan_mode s = Except.ok FAN_KITCHEN) ∧
    (∀ w : VentWorld, ((async_set_fan_mode w FAN_KITCHEN).1).trace =
        w.trace ++ [⟨COMMAND_SET_AIR_DEMAND_MODE, [PValue.str "boost"]⟩,
          cmdRefreshVentState, cmdRefreshVentConfig]) ∧
    (∀ s : VentState, dictGet s.ventilationMode "cooling" ≠ some "on" →
        s.airDemandMode = some "high" → fan_mode s = Except.ok FAN_AWAY) ∧
    (∀ w : VentWorld, ((async_set_fan_mode w FAN_AWAY).1).trace =
        w.trace ++ [⟨COMMAND_SET_AIR_DEMAND_MODE, [PValue.str "high"]⟩,
          cmdRefreshVentState, cmdRefreshVentConfig]) ∧
    (∀ s : VentState, dictGet s.ventilationMode "cooling" ≠ some "on" →
        s.airDemandMode = none → fan_mode s = Except.ok FAN_BYPASS) ∧
    (∀ w : VentWorld, ((async_set_fan_mode w FAN_BYPASS).1).trace =
        w.trace ++ [⟨COMMAND_SET_AIR_DEMAND_MODE, [PValue.str "auto"]⟩,
          cmdRefreshVentState, cmdRefreshVentConfig]) := by
  refine ⟨?_, ?_, ?_, ?_, ?_, ?_, ?_, ?_, ?_⟩
  · intro raw g h
    have hmem := tblGet_mem h
    simp [TAHOMA_TO_OPERATION_MODE] at hmem
    rcases hmem with ⟨h1, h2⟩ | ⟨h1, h2⟩ | ⟨h1, h2⟩ | ⟨h1, h2⟩ <;>
      subst h1 <;> subst h2 <;> decide
  · intro s hc ha
    simp [fan_mode, hc, ha, fanTblGet, TAHOMA_TO_FAN_MODES, FAN_AUTO, List.find?]
  · intro w
    simp [async_set_fan_mode, exec1, revFanTblGet, FAN_MODES_TO_TAHOMA,
      TAHOMA_TO_FAN_MODES, FAN_AUTO, FAN_BOOST, FAN_KITCHEN, FAN_AWAY, FAN_BYPASS,
      List.find?]
  · intro s hc ha
    simp [fan_mode, hc, ha, fanTblGet, TAHOMA_TO_FAN_MODES, FAN_KITCHEN, List.find?]
  · intro w
    simp [async_set_fan_mode, exec1, revFanTblGet, FAN_MODES_TO_TAHOMA,
      TAHOMA_TO_FAN_MODES, FAN_AUTO, FAN_BOOST, FAN_KITCHEN, FAN_AWAY, FAN_BYPASS,
      List.find?]
  · intro s hc ha
    simp [fan_mode, hc, ha, fanTblGet, TAHOMA_TO_FAN_MODES, FAN_AWAY, List.find?]
  · intro w
    simp [async_set_fan_mode, exec1, revFanTblGet, FAN_MODES_TO_TAHOMA,
      TAHOMA_TO_FAN_MODES, FAN_AUTO, FAN_BOOST, FAN_KITCHEN, FAN_AWAY, FAN_BYPASS,
      List.find?]
  · intro s hc ha
    simp [fan_mode, hc, ha, fanTblGet, TAHOMA_TO_FAN_MODES, FAN_BYPASS, List.find?]
  · intro w
    simp [async_set_fan_mode, exec1, FAN_BYPASS]

/-- Witness for C6 at concrete inputs: the auto-mode raw value round-trips
through the hot-water tables; the three named fan raw values are read as
the corresponding fan modes from a state with no cooling flag; the absent
raw value is read as bypass. -/
theorem c6_mode_table_round_trips_witness :
    tblGet OPERATION_MODE_TO_TAHOMA "auto" = some "autoMode" ∧
    fan_mode ⟨none, [], some "auto"⟩ = Except.ok FAN_AUTO ∧
    fan_mode ⟨none, [], some "boost"⟩ = Except.ok FAN_KITCHEN ∧
    fan_mode ⟨none, [], some "high"⟩ = Except.ok FAN_AWAY ∧
    fan_mode ⟨none, [], none⟩ = Except.ok FAN_BYPASS :=
  ⟨c6_mode_table_round_trips.1 "autoMode" "auto" rfl,
   c6_mode_table_round_trips.2.1 ⟨none, [], some "auto"⟩ (by decide) rfl,
   c6_mode_table_round_trips.2.2.2.1 ⟨none, [], some "boost"⟩ (by decide) rfl,
   c6_mode_table_round_trips.2.2.2.2.2.1 ⟨none, [], some "high"⟩ (by decide) rfl,
   c6_mode_table_round_trips.2.2.2.2.2.2.2.1 ⟨none, [], none⟩ (by decide) rfl⟩

/-- C7 counterexample: with the cooling sub-field `"off"` and the unmapped
`AirDemandModeState` value `"invalid"`, the fan-mode read raises a lookup
error (`KeyError`) instead of degrading to an unknown result. -/
theorem c7_counterexample :
    fan_mode ⟨some "standard", [("cooling", "off")], some "invalid"⟩ =
      Except.error PyError.keyError := by
  rfl

/-- C7 amended: the preset-mode read degrades to `none` when the `prog`
sub-field is not `"on"` and the configuration-mode value is neither
`"comfort"` nor `"standard"`; the fan-mode read degrades to bypass only
when the cooling sub-field is not `"on"` and the `AirDemandModeState`
channel is absent, and raises a lookup error (`KeyError`) when that channel
holds a value outside the fixed table. -/
theorem c7_unmapped_reads_amended :
    (∀ s : VentState, dictGet s.ventilationMode "prog" ≠ some "on" →
        s.ventilationConfigurationMode ≠ some "comfort" →
        s.ventilationConfigurationMode ≠ some "standard" →
        preset_mode s = none) ∧
    (∀ s : VentState, dictGet s.ventilationMode "cooling" ≠ some "on" →
        s.airDemandMode = none → fan_mode s = Except.ok FAN_BYPASS) ∧
    (∀ (s : VentState) (v : String), dictGet s.ventilationMode "cooling" ≠ some "on" →
        s.airDemandMode = some v → fanTblGet TAHOMA_TO_FAN_MODES (some v) = none →
        fan_mode s = Except.error PyError.keyError) := by
  refine ⟨?_, ?_, ?_⟩
  · intro s hp hc hs
    simp [preset_mode, hp, hc, hs]
  · intro s hc ha
    simp [fan_mode, hc, ha, fanTblGet, TAHOMA_TO_FAN_MODES, List.find?]
  · intro s v hc ha hlook
    simp [fan_mode, hc, ha, hlook]

/-- Witness for C7 amended: an unrecognized configuration value yields an
unknown preset; an absent air-demand value yields bypass; a present
unmapped air-demand value makes the fan-mode read fail. -/
theorem c7_unmapped_reads_amended_witness :
    preset_mode ⟨some "weird", [("prog", "off")], none⟩ = none ∧
    fan_mode ⟨some "weird", [("cooling", "off")], none⟩ = Except.ok FAN_BYPASS ∧
    fan_mode ⟨some "weird", [("cooling", "off")], some "invalid"⟩ =
      Except.error PyError.keyError :=
  ⟨c7_unmapped_reads_amended.1 ⟨some "weird", [("prog", "off")], none⟩
      (by decide) (by decide) (by decide),
   c7_unmapped_reads_amended.2.1 ⟨some "weird", [("cooling", "off")], none⟩
      (by decide) rfl,
   c7_unmapped_reads_amended.2.2 ⟨some "weird", [("cooling", "off")], some "invalid"⟩
      "invalid" (by decide) rfl (by decide)⟩

/-- C8: the raw device state held by the Device State Store is read-only to
the ventilation controller — the set-preset-mode transaction (which reads
the `VentilationModeState` record and builds a `setVentilationMode` payload
from it), the ventilation-mode helper itself, the set-fan-mode transaction
and the set-hvac-mode operation all leave the stored state unchanged; the
modified record appears only inside the submitted command payload. -/
theorem c8_store_read_only :
    (∀ (w : VentWorld) (p : String), (async_set_preset_mode w p).store = w.store) ∧
    (∀ (w : VentWorld) (cooling prog : Option String),
        (set_ventilation_mode w cooling prog).store = w.store) ∧
    (∀ (w : VentWorld) (f : String), ((async_set_fan_mode w f).1).store = w.store) ∧
    (∀ (w : VentWorld) (m : String), (async_set_hvac_mode w m).store = w.store) := by
  have hv : ∀ (w : VentWorld) (cooling prog : Option String),
      (set_ventilation_mode w cooling prog).store = w.store := by
    intro w cooling prog
    simp [set_ventilation_mode, exec1]
  refine ⟨?_, hv, ?_, ?_⟩
  · intro w p
    by_cases h1 : p = PRESET_AUTO
    · subst h1
      simp [async_set_preset_mode, set_ventilation_mode, exec1,
        PRESET_AUTO, PRESET_PROG, PRESET_MANUAL]
    · by_cases h2 : p = PRESET_PROG
      · subst h2
        simp [async_set_preset_mode, set_ventilation_mode, exec1,
          PRESET_AUTO, PRESET_PROG, PRESET_MANUAL]
      · by_cases h3 : p = PRESET_MANUAL
        · subst h3
          simp [async_set_preset_mode, set_ventilation_mode, exec1,
            PRESET_AUTO, PRESET_PROG, PRESET_MANUAL]
        · simp [async_set_preset_mode, exec1, h1, h2, h3]
  · intro w f
    by_cases h : f = FAN_BYPASS
    · simp [async_set_fan_mode, exec1, h]
    · cases hr : revFanTblGet FAN_MODES_TO_TAHOMA f <;>
        simp [async_set_fan_mode, exec1, h, hr]
  · intro w m
    rfl

/-- C9: a sensor change notification with identical old and new states or
with an absent new state leaves the world entirely unchanged (no cache
write, no scheduled update); a notification whose new value fails to parse
as a number leaves the cached temperature at its prior value, and the
handler is a total function, so no exception reaches the notification
source; otherwise the cached temperature becomes the parsed value (given
that the parser, like Python `float`, rejects the literal `"unknown"`). -/
theorem c9_temp_sensor_notifications :
    (∀ (parseFloat : String → Option ℚ) (w : VentWorld)
        (old_state new_state : Option SensorState),
        new_state = none ∨ old_state = new_state →
        async_temp_sensor_changed parseFloat w old_state new_state = w) ∧
    (∀ (parseFloat : String → Option ℚ) (w : VentWorld)
        (old_state : Option SensorState) (st : SensorState),
        old_state ≠ some st → parseFloat st.state = none →
        (async_temp_sensor_changed parseFloat w old_state (some st)).ctl.current_temperature =
          w.ctl.current_temperature) ∧
    (∀ (parseFloat : String → Option ℚ) (w : VentWorld)
        (old_state : Option SensorState) (st : SensorState) (v : ℚ),
        parseFloat STATE_UNKNOWN = none →
        old_state ≠ some st → parseFloat st.state = some v →
        (async_temp_sensor_changed parseFloat w old_state (some st)).ctl.current_temperature =
          some v) := by
  refine ⟨?_, ?_, ?_⟩
  · intro parseFloat w old_state new_state h
    simp only [async_temp_sensor_changed]
    rw [if_pos h]
  · intro parseFloat w old_state st hne hp
    simp only [async_temp_sensor_changed]
    rw [if_neg (by simp [hne])]
    by_cases hu : st.state = STATE_UNKNOWN
    · simp [schedule_update_ha_state, update_temp, hu]
    · simp [schedule_update_ha_state, update_temp, hu, hp]
  · intro parseFloat w old_state st v hpu hne hp
    simp only [async_temp_sensor_changed]
    rw [if_neg (by simp [hne])]
    have hu : st.state ≠ STATE_UNKNOWN := by
      intro hu
      rw [hu, hpu] at hp
      exact Option.noConfusion hp
    simp [schedule_update_ha_state, update_temp, hu, hp]

/-- Witness for C9 with a concrete parser: an identical old and new state
changes nothing; an unparsable value keeps the prior cached temperature 5;
a parsable value replaces it. -/
theorem c9_temp_sensor_notifications_witness :
    async_temp_sensor_changed (fun s => if s = "21.5" then some ((43 : ℚ) / 2) else none)
        ⟨⟨none, [], none⟩, ⟨none, some 5⟩, 0, []⟩
        (some ⟨"sensor.temp", "21.5", []⟩) (some ⟨"sensor.temp", "21.5", []⟩) =
      ⟨⟨none, [], none⟩, ⟨none, some 5⟩, 0, []⟩ ∧
    (async_temp_sensor_changed (fun s => if s = "21.5" then some ((43 : ℚ) / 2) else none)
        ⟨⟨none, [], none⟩, ⟨none, some 5⟩, 0, []⟩
        none (some ⟨"sensor.temp", "bogus", []⟩)).ctl.current_temperature = some 5 ∧
    (async_temp_sensor_changed (fun s => if s = "21.5" then some ((43 : ℚ) / 2) else none)
        ⟨⟨none, [], none⟩, ⟨none, some 5⟩, 0, []⟩
        none (some ⟨"sensor.temp", "21.5", []⟩)).ctl.current_temperature =
      some ((43 : ℚ) / 2) :=
  ⟨c9_temp_sensor_notifications.1 (fun s => if s = "21.5" then some ((43 : ℚ) / 2) else none)
      ⟨⟨none, [], none⟩, ⟨none, some 5⟩, 0, []⟩
      (some ⟨"sensor.temp", "21.5", []⟩) (some ⟨"sensor.temp", "21.5", []⟩)
      (Or.inr rfl),
   Eq.trans
     (c9_temp_sensor_notifications.2.1
       (fun s => if s = "21.5" then some ((43 : ℚ) / 2) else none)
       ⟨⟨none, [], none⟩, ⟨none, some 5⟩, 0, []⟩
       none ⟨"sensor.temp", "bogus", []⟩ (by simp) (by simp)) rfl,
   c9_temp_sensor_notifications.2.2
     (fun s => if s = "21.5" then some ((43 : ℚ) / 2) else none)
     ⟨⟨none, [], none⟩, ⟨none, some 5⟩, 0, []⟩
     none ⟨"sensor.temp", "21.5", []⟩ ((43 : ℚ) / 2) (by simp [STATE_UNKNOWN]) (by simp) (by simp)⟩

/-- C10: the ventilation set-hvac-mode operation is a complete no-op for
every input string and every world: it submits no command, never fails, and
leaves the store, the controller fields (cached temperature and sensor
binding), the scheduled-update count and the command trace unchanged. -/
theorem c10_set_hvac_mode_noop :
    ∀ (w : VentWorld) (m : String), async_set_hvac_mode w m = w := by
  intro w m
  rfl
